import Mathlib

/-!
# Teensy 2.0 TWI driver (`src/lib/twi/teensy-2-0.c`)

A shallow embedding of the two-wire-interface master driver and of its
bus-fault probe.

## Machine model

* The memory-mapped registers the driver touches (`TWCR`, `TWDR`, `TWSR`,
  `TWBR`, `DDRD`, `PORTD`) form a register file `Regs`; the static variable
  `twi_fault_detected` is a field of `State`.
* Every access to a memory-mapped register is a volatile access.  The
  chronological list of those accesses is kept in `State.log`, so "the
  function did not touch the hardware" is the statement that the log did not
  grow.
* Registers hold 8-bit values: a register write stores the value reduced
  modulo `2^8`, a read returns the content.
* The input register `PIND` is not storage: reading it asks the environment
  `Hw.pind`, which may depend on the access history and on the register file
  (in particular on `DDRD` and `PORTD`).
* The peripheral runs while the CPU polls: before each read of `TWCR` in a
  busy-wait loop the environment function `Hw.tick` transforms the register
  file.  Outside the polling loops the register file only changes through
  the writes of the program.
* Busy-wait loops have no bound in the C code; the embedding gives them a
  fuel argument and returns `none` when the fuel runs out.
* `_delay_us` only spends time and is the identity on the state.
-/

namespace Twi

/-! ## Constants of `<avr/io.h>` and `<util/twi.h>` -/

def TWINT : Nat := 7
def TWEA : Nat := 6
def TWSTA : Nat := 5
def TWSTO : Nat := 4
def TWEN : Nat := 2
def TWPS1 : Nat := 1
def TWPS0 : Nat := 0

def TW_STATUS_MASK : Nat := 0xF8
def TW_START : Nat := 0x08
def TW_REP_START : Nat := 0x10
def TW_MT_SLA_ACK : Nat := 0x18
def TW_MT_DATA_ACK : Nat := 0x28
def TW_MR_SLA_ACK : Nat := 0x40
def TW_MR_DATA_ACK : Nat := 0x50

/-- The value of `(uint8_t)(-1)`, returned by `return -1;` in a function
whose return type is `uint8_t`. -/
def FAULT_SENTINEL : Nat := ((-1 : Int) % 2 ^ 8).toNat

/-! ## Registers, accesses, state -/

/-- Names of the memory-mapped registers used by the driver. -/
inductive Reg where
  | TWCR | TWDR | TWSR | TWBR | DDRD | PORTD | PIND
  deriving DecidableEq, Repr

/-- One volatile access: the register and the value read or written. -/
inductive Access where
  | read (r : Reg) (v : Nat)
  | write (r : Reg) (v : Nat)
  deriving DecidableEq, Repr

/-- Is the access a read. -/
def Access.isRead : Access → Bool
  | .read _ _ => true
  | .write _ _ => false

/-- The storage registers. -/
structure Regs where
  TWCR : Nat
  TWDR : Nat
  TWSR : Nat
  TWBR : Nat
  DDRD : Nat
  PORTD : Nat
  deriving DecidableEq, Repr

/-- Program state: register file, the static flag, and the access history. -/
structure State where
  regs : Regs
  twi_fault_detected : Bool
  log : List Access
  deriving DecidableEq, Repr

/-- The environment: what the port D input pins show, and how the TWI
peripheral moves the register file between two polls. -/
structure Hw where
  pind : List Access → Regs → Nat
  tick : List Access → Regs → Regs

/-- State at program start: `static bool twi_fault_detected = false;`. -/
def State.start (r : Regs) : State :=
  { regs := r, twi_fault_detected := false, log := [] }

/-- Content of a storage register (`PIND` has no storage). -/
def Regs.get (r : Regs) : Reg → Nat
  | .TWCR => r.TWCR
  | .TWDR => r.TWDR
  | .TWSR => r.TWSR
  | .TWBR => r.TWBR
  | .DDRD => r.DDRD
  | .PORTD => r.PORTD
  | .PIND => 0

/-- Store into a storage register (`PIND` has no storage). -/
def Regs.set (r : Regs) : Reg → Nat → Regs
  | .TWCR, v => { r with TWCR := v }
  | .TWDR, v => { r with TWDR := v }
  | .TWSR, v => { r with TWSR := v }
  | .TWBR, v => { r with TWBR := v }
  | .DDRD, v => { r with DDRD := v }
  | .PORTD, v => { r with PORTD := v }
  | .PIND, _ => r

/-- Volatile read of a storage register. -/
def State.read (s : State) (reg : Reg) : Nat × State :=
  (s.regs.get reg, { s with log := s.log ++ [Access.read reg (s.regs.get reg)] })

/-- Volatile write of an 8-bit register. -/
def State.write (s : State) (reg : Reg) (v : Nat) : State :=
  { s with regs := s.regs.set reg (v % 2 ^ 8),
           log := s.log ++ [Access.write reg (v % 2 ^ 8)] }

/-- Volatile read of the input register `PIND`. -/
def readPIND (hw : Hw) (s : State) : Nat × State :=
  (hw.pind s.log s.regs,
   { s with log := s.log ++ [Access.read Reg.PIND (hw.pind s.log s.regs)] })

/-- One poll of `TWCR` in a busy-wait loop: the peripheral advances, then
the register is read. -/
def poll (hw : Hw) (s : State) : State :=
  { s with regs := hw.tick s.log s.regs,
           log := s.log ++ [Access.read Reg.TWCR (hw.tick s.log s.regs).TWCR] }

/-- The loop `while (spin TWCR);` with fuel. -/
def busyWait (hw : Hw) (spin : Nat → Bool) : Nat → State → Option State
  | 0, _ => none
  | fuel + 1, s =>
    let s1 := poll hw s
    if spin s1.regs.TWCR then busyWait hw spin fuel s1 else some s1

/-- The macro `TW_STATUS`, i.e. `(TWSR & TW_STATUS_MASK)`: one volatile read. -/
def TW_STATUS (s : State) : Nat × State :=
  let (v, s1) := s.read Reg.TWSR
  (v &&& TW_STATUS_MASK, s1)

/-! ## The driver -/

/-- The fault probe `twi_fault`. -/
def twi_fault (hw : Hw) (s : State) : Bool × State :=
  let failing := true
  let (ddrd_orig, s) := s.read Reg.DDRD
  let s := s.write Reg.PORTD 0
  -- Emit stuff on SCL (PD0)
  let s := s.write Reg.DDRD 0x01
  let (p, s) := readPIND hw s
  let failing := failing && ((p &&& 2) == 0)
  -- Emit stuff on SDA (PD1)
  let s := s.write Reg.DDRD 0x02
  let (p, s) := readPIND hw s
  let failing := failing && ((p &&& 1) == 0)
  -- Restore I/O control state
  let s := s.write Reg.DDRD ddrd_orig
  (failing, { s with twi_fault_detected := failing })

/-- The value stored by `TWBR = ((F_CPU / TWI_FREQ) - 16) / 2;`: C integer
arithmetic (division truncates toward zero), converted to `uint8_t`. -/
def twbr_value (F_CPU TWI_FREQ : Int) : Nat :=
  ((((F_CPU.tdiv TWI_FREQ) - 16).tdiv 2) % 2 ^ 8).toNat

/-- The function `twi_init`.  The macros `F_CPU` and `TWI_FREQ` are defined
outside this file and are parameters here. -/
def twi_init (F_CPU TWI_FREQ : Int) (hw : Hw) (s : State) : State :=
  let (fault, s) := twi_fault hw s
  if fault then s
  else
    -- TWSR &= ~( (1<<TWPS1)|(1<<TWPS0) );  (the complement is taken in `int`)
    let (v, s) := s.read Reg.TWSR
    let s := s.write Reg.TWSR (v &&& (0xFFFF ^^^ ((1 <<< TWPS1) ||| (1 <<< TWPS0))))
    s.write Reg.TWBR (twbr_value F_CPU TWI_FREQ)

/-- The function `twi_start`. -/
def twi_start (hw : Hw) (fuel : Nat) (s : State) : Option (Nat × State) :=
  if s.twi_fault_detected then some (FAULT_SENTINEL, s)
  else
    let s := s.write Reg.TWCR ((1 <<< TWINT) ||| (1 <<< TWEN) ||| (1 <<< TWSTA))
    match busyWait hw (fun v => (v &&& (1 <<< TWINT)) == 0) fuel s with
    | none => none
    | some s =>
      let (st1, s) := TW_STATUS s
      if st1 != TW_START then
        let (st2, s) := TW_STATUS s
        if st2 != TW_REP_START then
          let (st3, s) := TW_STATUS s
          some (st3, s)
        else some (0, s)
      else some (0, s)

/-- The function `twi_stop`. -/
def twi_stop (hw : Hw) (fuel : Nat) (s : State) : Option State :=
  if s.twi_fault_detected then some s
  else
    let s := s.write Reg.TWCR ((1 <<< TWINT) ||| (1 <<< TWEN) ||| (1 <<< TWSTO))
    busyWait hw (fun v => (v &&& (1 <<< TWSTO)) != 0) fuel s

/-- The function `twi_send`. -/
def twi_send (hw : Hw) (fuel : Nat) (data : Nat) (s : State) : Option (Nat × State) :=
  if s.twi_fault_detected then some (FAULT_SENTINEL, s)
  else
    let s := s.write Reg.TWDR data
    let s := s.write Reg.TWCR ((1 <<< TWINT) ||| (1 <<< TWEN))
    match busyWait hw (fun v => (v &&& (1 <<< TWINT)) == 0) fuel s with
    | none => none
    | some s =>
      let (st1, s) := TW_STATUS s
      if st1 != TW_MT_SLA_ACK then
        let (st2, s) := TW_STATUS s
        if st2 != TW_MT_DATA_ACK then
          let (st3, s) := TW_STATUS s
          if st3 != TW_MR_SLA_ACK then
            let (st4, s) := TW_STATUS s
            some (st4, s)
          else some (0, s)
        else some (0, s)
      else some (0, s)

/-- The function `twi_read`.  The argument `data` is the content of the
output slot `*data` before the call; the result is the return value, the
content of the slot after the call, and the state. -/
def twi_read (hw : Hw) (fuel : Nat) (data : Nat) (s : State) :
    Option (Nat × Nat × State) :=
  if s.twi_fault_detected then some (FAULT_SENTINEL, data, s)
  else
    let s := s.write Reg.TWCR ((1 <<< TWINT) ||| (1 <<< TWEN) ||| (1 <<< TWEA))
    match busyWait hw (fun v => (v &&& (1 <<< TWINT)) == 0) fuel s with
    | none => none
    | some s =>
      -- *data = TWDR;
      let (data, s) := s.read Reg.TWDR
      let (st1, s) := TW_STATUS s
      if st1 != TW_MR_DATA_ACK then
        let (st2, s) := TW_STATUS s
        some (st2, data, s)
      else some (0, data, s)

/-- The register an access goes to. -/
def Access.reg : Access → Reg
  | .read r _ => r
  | .write r _ => r

/-! ## Sequences of calls of the public functions -/

/-- One call of a public function of the driver, with its argument. -/
inductive Op where
  | init
  | start
  | stop
  | send (data : Nat)
  | read (slot : Nat)
  deriving DecidableEq, Repr

/-- The state after one call (return values dropped). -/
def Op.run (F_CPU TWI_FREQ : Int) (hw : Hw) (fuel : Nat) : Op → State → Option State
  | .init, s => some (twi_init F_CPU TWI_FREQ hw s)
  | .start, s => (twi_start hw fuel s).map (fun r => r.2)
  | .stop, s => twi_stop hw fuel s
  | .send data, s => (twi_send hw fuel data s).map (fun r => r.2)
  | .read slot, s => (twi_read hw fuel slot s).map (fun r => r.2.2)

/-- The state after a sequence of calls, each call with the given fuel. -/
def runOps (F_CPU TWI_FREQ : Int) (hw : Hw) (fuel : Nat) : List Op → State → Option State
  | [], s => some s
  | op :: ops, s => (op.run F_CPU TWI_FREQ hw fuel s).bind (runOps F_CPU TWI_FREQ hw fuel ops)

/-! ## Concrete environments and states used in the examples -/

/-- Register contents after reset (`TWSR = 0xF8`, `TWDR = 0xFF`). -/
def resetRegs : Regs :=
  { TWCR := 0, TWDR := 0xFF, TWSR := 0xF8, TWBR := 0, DDRD := 0, PORTD := 0 }

/-- A simulated environment.  The port D pins always read `pins`.  At the
poll that follows a write of `TWCR` the peripheral shows the operation in
progress (`TWINT` cleared); at the next poll it shows it complete: `TWINT`
set, `TWSTO` cleared, `TWSR = status`, `TWDR = rx`. -/
def simHw (pins status rx : Nat) : Hw where
  pind := fun _ _ => pins
  tick := fun log r =>
    match log.getLast? with
    | some (Access.write Reg.TWCR _) => { r with TWCR := r.TWCR &&& 0x7F }
    | _ => { r with TWCR := (r.TWCR &&& 0x6F) ||| 0x80, TWSR := status, TWDR := rx }

/-- An environment whose two bus lines are shorted during the first probe
(the first seven volatile accesses) and free afterwards. -/
def replugHw : Hw where
  pind := fun log _ => if log.length < 7 then 0x00 else 0xFF
  tick := (simHw 0xFF 0x08 0).tick

/-- A state with the fault flag set. -/
def faultedState : State :=
  { regs := resetRegs, twi_fault_detected := true, log := [] }

/-! ## Facts about the polling loop -/

theorem poll_flag (hw : Hw) (s : State) :
    (poll hw s).twi_fault_detected = s.twi_fault_detected := rfl

theorem poll_iter_flag (hw : Hw) (k : Nat) (s : State) :
    ((poll hw)^[k] s).twi_fault_detected = s.twi_fault_detected := by
  induction k generalizing s with
  | zero => rfl
  | succ k ih => rw [Function.iterate_succ_apply, ih, poll_flag]

theorem poll_iter_log (hw : Hw) (k : Nat) (s : State) :
    ∃ rest, ((poll hw)^[k] s).log = s.log ++ rest ∧ ∀ a ∈ rest, a.isRead = true := by
  induction k generalizing s with
  | zero => exact ⟨[], by simp, by simp⟩
  | succ k ih =>
    obtain ⟨rest, h1, h2⟩ := ih (poll hw s)
    refine ⟨Access.read Reg.TWCR (hw.tick s.log s.regs).TWCR :: rest, ?_, ?_⟩
    · rw [Function.iterate_succ_apply, h1]
      simp [poll]
    · intro a ha
      rcases List.mem_cons.mp ha with rfl | ha
      · rfl
      · exact h2 a ha

/-- If the loop condition holds at the first `n` polls and fails at poll
`n + 1`, the loop ends there for every fuel above `n`. -/
theorem busyWait_first (hw : Hw) (spin : Nat → Bool) (n : Nat) (s : State)
    (hspin : ∀ m, m < n → spin ((poll hw)^[m + 1] s).regs.TWCR = true)
    (hdone : spin ((poll hw)^[n + 1] s).regs.TWCR = false) (fuel : Nat) (hf : n < fuel) :
    busyWait hw spin fuel s = some ((poll hw)^[n + 1] s) := by
  induction n generalizing s fuel with
  | zero =>
    obtain ⟨f, rfl⟩ : ∃ f, fuel = f + 1 := ⟨fuel - 1, by omega⟩
    simp only [Function.iterate_succ_apply, Function.iterate_zero, id] at hdone ⊢
    simp [busyWait, hdone]
  | succ n ih =>
    obtain ⟨f, rfl⟩ : ∃ f, fuel = f + 1 := ⟨fuel - 1, by omega⟩
    have h0 : spin (poll hw s).regs.TWCR = true := by
      simpa using hspin 0 (Nat.succ_pos n)
    have := ih (poll hw s)
      (fun m hm => by simpa [Function.iterate_succ_apply] using hspin (m + 1) (by omega))
      (by simpa [Function.iterate_succ_apply] using hdone) f (by omega)
    rw [Function.iterate_succ_apply]
    simp only [busyWait, h0, if_true]
    exact this

/-- If the loop condition fails at some poll, the loop ends at the first
such poll, for every large enough fuel. -/
theorem busyWait_of_exists (hw : Hw) (spin : Nat → Bool) (s : State)
    (h : ∃ n, spin ((poll hw)^[n + 1] s).regs.TWCR = false) :
    ∃ n, spin ((poll hw)^[n + 1] s).regs.TWCR = false ∧
      ∀ fuel, n < fuel → busyWait hw spin fuel s = some ((poll hw)^[n + 1] s) := by
  classical
  refine ⟨Nat.find h, Nat.find_spec h, fun fuel hf => ?_⟩
  refine busyWait_first hw spin (Nat.find h) s (fun m hm => ?_) (Nat.find_spec h) fuel hf
  have := Nat.find_min h hm
  simpa using this

/-! ## Facts about single accesses -/

@[simp] theorem TW_STATUS_fst (s : State) :
    (TW_STATUS s).1 = s.regs.TWSR &&& TW_STATUS_MASK := rfl

@[simp] theorem TW_STATUS_snd (s : State) :
    (TW_STATUS s).2 = { s with log := s.log ++ [Access.read Reg.TWSR s.regs.TWSR] } := rfl

theorem write_log (s : State) (reg : Reg) (v : Nat) :
    (s.write reg v).log = s.log ++ [Access.write reg (v % 2 ^ 8)] := rfl

theorem write_flag (s : State) (reg : Reg) (v : Nat) :
    (s.write reg v).twi_fault_detected = s.twi_fault_detected := rfl

theorem FAULT_SENTINEL_eq : FAULT_SENTINEL = 255 := by decide

/-- The masked status is at most `0xF8`. -/
theorem status_le (v : Nat) : v &&& TW_STATUS_MASK ≤ 0xF8 := Nat.and_le_right

/-! ## Behaviour with the fault flag set -/

theorem twi_start_faulted (hw : Hw) (fuel : Nat) (s : State)
    (h : s.twi_fault_detected = true) : twi_start hw fuel s = some (255, s) := by
  simp [twi_start, h, FAULT_SENTINEL_eq]

theorem twi_send_faulted (hw : Hw) (fuel data : Nat) (s : State)
    (h : s.twi_fault_detected = true) : twi_send hw fuel data s = some (255, s) := by
  simp [twi_send, h, FAULT_SENTINEL_eq]

theorem twi_read_faulted (hw : Hw) (fuel slot : Nat) (s : State)
    (h : s.twi_fault_detected = true) : twi_read hw fuel slot s = some (255, slot, s) := by
  simp [twi_read, h, FAULT_SENTINEL_eq]

theorem twi_stop_faulted (hw : Hw) (fuel : Nat) (s : State)
    (h : s.twi_fault_detected = true) : twi_stop hw fuel s = some s := by
  simp [twi_stop, h]

/-- C1. With `twi_fault_detected` set, for every environment, every fuel
(zero included, so no busy-wait loop is entered), every byte argument and
every content of the output slot: `twi_start`, `twi_send` and `twi_read`
return `(uint8_t)(-1) = 255`, `twi_stop` returns, and the state after the
call is the state before it: no register, not the flag, and no volatile
access added to the history. -/
theorem fault_flag_blocks_all (hw : Hw) (fuel : Nat) (data slot : Nat) (s : State)
    (h : s.twi_fault_detected = true) :
    twi_start hw fuel s = some (255, s) ∧
    twi_send hw fuel data s = some (255, s) ∧
    twi_read hw fuel slot s = some (255, slot, s) ∧
    twi_stop hw fuel s = some s :=
  ⟨twi_start_faulted hw fuel s h, twi_send_faulted hw fuel data s h,
    twi_read_faulted hw fuel slot s h, twi_stop_faulted hw fuel s h⟩

/-! ## `twi_start` -/

/-- C3. With the fault flag clear, if the peripheral raises `TWINT` at some
poll after the start command, then for every large enough fuel `twi_start`
returns; the first volatile access it makes is the write of
`(1<<TWINT)|(1<<TWEN)|(1<<TWSTA)` to `TWCR` and every later access is a
read; and, whatever the status register holds at completion, the return
value is `0` when `TWSR & 0xF8` is `TW_START` or `TW_REP_START` and is
`TWSR & 0xF8` itself otherwise. -/
theorem twi_start_spec (hw : Hw) (s : State)
    (hflag : s.twi_fault_detected = false)
    (hdone : ∃ n, ((poll hw)^[n + 1]
        (s.write Reg.TWCR ((1 <<< TWINT) ||| (1 <<< TWEN) ||| (1 <<< TWSTA)))).regs.TWCR
          &&& (1 <<< TWINT) ≠ 0) :
    ∃ fuel ret s',
      (∀ f, fuel ≤ f → twi_start hw f s = some (ret, s')) ∧
      (∃ rest, s'.log = s.log ++
          Access.write Reg.TWCR ((1 <<< TWINT) ||| (1 <<< TWEN) ||| (1 <<< TWSTA)) :: rest ∧
        ∀ a ∈ rest, a.isRead = true) ∧
      s'.regs.TWCR &&& (1 <<< TWINT) ≠ 0 ∧
      ((s'.regs.TWSR &&& TW_STATUS_MASK = TW_START ∨
          s'.regs.TWSR &&& TW_STATUS_MASK = TW_REP_START) → ret = 0) ∧
      (¬ (s'.regs.TWSR &&& TW_STATUS_MASK = TW_START ∨
          s'.regs.TWSR &&& TW_STATUS_MASK = TW_REP_START) →
        ret = s'.regs.TWSR &&& TW_STATUS_MASK) := by
  obtain ⟨n, hn, hfuel⟩ := busyWait_of_exists hw (fun v => (v &&& (1 <<< TWINT)) == 0)
    (s.write Reg.TWCR ((1 <<< TWINT) ||| (1 <<< TWEN) ||| (1 <<< TWSTA)))
    (by obtain ⟨n, hn⟩ := hdone; exact ⟨n, by simpa using hn⟩)
  obtain ⟨rest, hlog, hrest⟩ := poll_iter_log hw (n + 1)
    (s.write Reg.TWCR ((1 <<< TWINT) ||| (1 <<< TWEN) ||| (1 <<< TWSTA)))
  generalize hs2 : (poll hw)^[n + 1]
    (s.write Reg.TWCR ((1 <<< TWINT) ||| (1 <<< TWEN) ||| (1 <<< TWSTA))) = s2 at hn hfuel hlog
  have hint : s2.regs.TWCR &&& (1 <<< TWINT) ≠ 0 := by simpa using hn
  have hw0 : (s.write Reg.TWCR ((1 <<< TWINT) ||| (1 <<< TWEN) ||| (1 <<< TWSTA))).log
      = s.log ++ [Access.write Reg.TWCR ((1 <<< TWINT) ||| (1 <<< TWEN) ||| (1 <<< TWSTA))] := by
    rw [write_log]; rfl
  rw [hw0] at hlog
  by_cases h1 : s2.regs.TWSR &&& TW_STATUS_MASK = TW_START
  · refine ⟨n + 1, 0, (TW_STATUS s2).2, fun f hf => ?_, ⟨rest ++ [Access.read Reg.TWSR s2.regs.TWSR], ?_, ?_⟩, hint, fun _ => rfl, fun h => absurd (Or.inl h1) h⟩
    · simp [twi_start, hflag, hfuel f (by omega), h1]
    · simp [hlog]
    · simpa [or_imp, forall_and, Access.isRead] using hrest
  · by_cases h2 : s2.regs.TWSR &&& TW_STATUS_MASK = TW_REP_START
    · refine ⟨n + 1, 0, (TW_STATUS (TW_STATUS s2).2).2, fun f hf => ?_, ⟨rest ++ [Access.read Reg.TWSR s2.regs.TWSR, Access.read Reg.TWSR s2.regs.TWSR], ?_, ?_⟩, hint, fun _ => rfl, fun h => absurd (Or.inr h2) h⟩
      · simp [twi_start, hflag, hfuel f (by omega), h2,
          show ¬ TW_REP_START = TW_START by decide]
      · simp [hlog]
      · simpa [or_imp, forall_and, Access.isRead] using hrest
    · refine ⟨n + 1, s2.regs.TWSR &&& TW_STATUS_MASK, (TW_STATUS (TW_STATUS (TW_STATUS s2).2).2).2, fun f hf => ?_, ⟨rest ++ [Access.read Reg.TWSR s2.regs.TWSR, Access.read Reg.TWSR s2.regs.TWSR, Access.read Reg.TWSR s2.regs.TWSR], ?_, ?_⟩, hint, fun h => ?_, fun _ => rfl⟩
      · simp [twi_start, hflag, hfuel f (by omega), h1, h2]
      · simp [hlog]
      · simpa [or_imp, forall_and, Access.isRead] using hrest
      · rcases h with h | h
        · exact absurd h h1
        · exact absurd h h2

/-! ## `twi_send` -/

/-- C2 (as amended). With the fault flag clear, if the peripheral raises
`TWINT` at some poll after the send command, then for every large enough
fuel `twi_send` returns, and, whatever the status register holds at
completion: the return value is `0` when `TWSR & 0xF8` is one of
`TW_MT_SLA_ACK`, `TW_MT_DATA_ACK`, `TW_MR_SLA_ACK`; it is `TWSR & 0xF8`
itself for any other status; hence it is `0` exactly when the status is one
of the three accepted codes or is `0x00`. -/
theorem twi_send_spec (hw : Hw) (data : Nat) (s : State)
    (hflag : s.twi_fault_detected = false)
    (hdone : ∃ n, ((poll hw)^[n + 1]
        ((s.write Reg.TWDR data).write Reg.TWCR ((1 <<< TWINT) ||| (1 <<< TWEN)))).regs.TWCR
          &&& (1 <<< TWINT) ≠ 0) :
    ∃ fuel ret s',
      (∀ f, fuel ≤ f → twi_send hw f data s = some (ret, s')) ∧
      s'.regs.TWCR &&& (1 <<< TWINT) ≠ 0 ∧
      ((s'.regs.TWSR &&& TW_STATUS_MASK = TW_MT_SLA_ACK ∨
          s'.regs.TWSR &&& TW_STATUS_MASK = TW_MT_DATA_ACK ∨
          s'.regs.TWSR &&& TW_STATUS_MASK = TW_MR_SLA_ACK) → ret = 0) ∧
      (¬ (s'.regs.TWSR &&& TW_STATUS_MASK = TW_MT_SLA_ACK ∨
          s'.regs.TWSR &&& TW_STATUS_MASK = TW_MT_DATA_ACK ∨
          s'.regs.TWSR &&& TW_STATUS_MASK = TW_MR_SLA_ACK) →
        ret = s'.regs.TWSR &&& TW_STATUS_MASK) ∧
      (ret = 0 ↔ (s'.regs.TWSR &&& TW_STATUS_MASK = TW_MT_SLA_ACK ∨
          s'.regs.TWSR &&& TW_STATUS_MASK = TW_MT_DATA_ACK ∨
          s'.regs.TWSR &&& TW_STATUS_MASK = TW_MR_SLA_ACK ∨
          s'.regs.TWSR &&& TW_STATUS_MASK = 0)) := by
  obtain ⟨n, hn, hfuel⟩ := busyWait_of_exists hw (fun v => (v &&& (1 <<< TWINT)) == 0)
    ((s.write Reg.TWDR data).write Reg.TWCR ((1 <<< TWINT) ||| (1 <<< TWEN)))
    (by obtain ⟨n, hn⟩ := hdone; exact ⟨n, by simpa using hn⟩)
  generalize hs2 : (poll hw)^[n + 1]
    ((s.write Reg.TWDR data).write Reg.TWCR ((1 <<< TWINT) ||| (1 <<< TWEN))) = s2 at hn hfuel
  have hint : s2.regs.TWCR &&& (1 <<< TWINT) ≠ 0 := by simpa using hn
  by_cases h1 : s2.regs.TWSR &&& TW_STATUS_MASK = TW_MT_SLA_ACK
  · refine ⟨n + 1, 0, (TW_STATUS s2).2, fun f hf => ?_, hint, fun _ => rfl,
      fun h => absurd (Or.inl h1) h, ?_⟩
    · simp [twi_send, hflag, hfuel f (by omega), h1]
    · simp [h1]
  · by_cases h2 : s2.regs.TWSR &&& TW_STATUS_MASK = TW_MT_DATA_ACK
    · refine ⟨n + 1, 0, (TW_STATUS (TW_STATUS s2).2).2, fun f hf => ?_, hint, fun _ => rfl,
        fun h => absurd (Or.inr (Or.inl h2)) h, ?_⟩
      · simp [twi_send, hflag, hfuel f (by omega), h2,
          show ¬ TW_MT_DATA_ACK = TW_MT_SLA_ACK by decide]
      · simp [h2]
    · by_cases h3 : s2.regs.TWSR &&& TW_STATUS_MASK = TW_MR_SLA_ACK
      · refine ⟨n + 1, 0, (TW_STATUS (TW_STATUS (TW_STATUS s2).2).2).2, fun f hf => ?_, hint,
          fun _ => rfl, fun h => absurd (Or.inr (Or.inr h3)) h, ?_⟩
        · simp [twi_send, hflag, hfuel f (by omega), h3,
            show ¬ TW_MR_SLA_ACK = TW_MT_SLA_ACK by decide,
            show ¬ TW_MR_SLA_ACK = TW_MT_DATA_ACK by decide]
        · simp [h3]
      · refine ⟨n + 1, s2.regs.TWSR &&& TW_STATUS_MASK,
          (TW_STATUS (TW_STATUS (TW_STATUS (TW_STATUS s2).2).2).2).2, fun f hf => ?_, hint,
          fun h => ?_, fun _ => rfl, ?_⟩
        · simp [twi_send, hflag, hfuel f (by omega), h1, h2, h3]
        · rcases h with h | h | h
          · exact absurd h h1
          · exact absurd h h2
          · exact absurd h h3
        · simp [h1, h2, h3]

/-! ## `twi_read` -/

/-- C4. When the fault flag is set, `twi_read` returns `255` and the output
slot keeps its previous content.  When the flag is clear and the peripheral
raises `TWINT` at some poll after the receive command, then for every large
enough fuel `twi_read` returns with the output slot holding the content of
`TWDR` (read after completion), for every status: the return value is `0`
when `TWSR & 0xF8` is `TW_MR_DATA_ACK` and is `TWSR & 0xF8` itself
otherwise. -/
theorem twi_read_spec (hw : Hw) (slot : Nat) (s : State) :
    (s.twi_fault_detected = true →
      ∀ fuel, twi_read hw fuel slot s = some (255, slot, s)) ∧
    (s.twi_fault_detected = false →
      (∃ n, ((poll hw)^[n + 1]
        (s.write Reg.TWCR ((1 <<< TWINT) ||| (1 <<< TWEN) ||| (1 <<< TWEA)))).regs.TWCR
          &&& (1 <<< TWINT) ≠ 0) →
      ∃ fuel ret s',
        (∀ f, fuel ≤ f → twi_read hw f slot s = some (ret, s'.regs.TWDR, s')) ∧
        s'.regs.TWCR &&& (1 <<< TWINT) ≠ 0 ∧
        Access.read Reg.TWDR s'.regs.TWDR ∈ s'.log ∧
        (s'.regs.TWSR &&& TW_STATUS_MASK = TW_MR_DATA_ACK → ret = 0) ∧
        (s'.regs.TWSR &&& TW_STATUS_MASK ≠ TW_MR_DATA_ACK →
          ret = s'.regs.TWSR &&& TW_STATUS_MASK)) := by
  refine ⟨fun h fuel => twi_read_faulted hw fuel slot s h, fun hflag hdone => ?_⟩
  obtain ⟨n, hn, hfuel⟩ := busyWait_of_exists hw (fun v => (v &&& (1 <<< TWINT)) == 0)
    (s.write Reg.TWCR ((1 <<< TWINT) ||| (1 <<< TWEN) ||| (1 <<< TWEA)))
    (by obtain ⟨n, hn⟩ := hdone; exact ⟨n, by simpa using hn⟩)
  generalize hs2 : (poll hw)^[n + 1]
    (s.write Reg.TWCR ((1 <<< TWINT) ||| (1 <<< TWEN) ||| (1 <<< TWEA))) = s2 at hn hfuel
  have hint : s2.regs.TWCR &&& (1 <<< TWINT) ≠ 0 := by simpa using hn
  by_cases h1 : s2.regs.TWSR &&& TW_STATUS_MASK = TW_MR_DATA_ACK
  · refine ⟨n + 1, 0, (TW_STATUS (s2.read Reg.TWDR).2).2, fun f hf => ?_, hint, ?_,
      fun _ => rfl, fun h => absurd h1 h⟩
    · simp [twi_read, hflag, hfuel f (by omega), h1, State.read, Regs.get]
    · simp [State.read, Regs.get]
  · refine ⟨n + 1, s2.regs.TWSR &&& TW_STATUS_MASK,
      (TW_STATUS (TW_STATUS (s2.read Reg.TWDR).2).2).2, fun f hf => ?_, hint, ?_,
      fun h => absurd h h1, fun _ => rfl⟩
    · simp [twi_read, hflag, hfuel f (by omega), h1, State.read, Regs.get]
    · simp [State.read, Regs.get]

/-! ## The fault probe -/

theorem and_two_eq_zero_iff (p : Nat) : p &&& 2 = 0 ↔ p.testBit 1 = false := by
  have h := Nat.and_two_pow p 1
  simp only [pow_one] at h
  rw [h]
  cases p.testBit 1 <;> simp

theorem and_one_eq_zero_iff (p : Nat) : p &&& 1 = 0 ↔ p.testBit 0 = false := by
  have h := Nat.and_two_pow p 0
  simp only [pow_zero, mul_one] at h
  rw [h]
  cases p.testBit 0 <;> simp

/-- The volatile accesses made by the probe, in order. -/
theorem twi_fault_log (hw : Hw) (s : State) :
    (twi_fault hw s).2.log = s.log ++
      [Access.read Reg.DDRD s.regs.DDRD, Access.write Reg.PORTD 0,
        Access.write Reg.DDRD 0x01,
        Access.read Reg.PIND (hw.pind
          (s.log ++ [Access.read Reg.DDRD s.regs.DDRD, Access.write Reg.PORTD 0,
            Access.write Reg.DDRD 0x01])
          { s.regs with PORTD := 0, DDRD := 0x01 }),
        Access.write Reg.DDRD 0x02,
        Access.read Reg.PIND (hw.pind
          (s.log ++ [Access.read Reg.DDRD s.regs.DDRD, Access.write Reg.PORTD 0,
            Access.write Reg.DDRD 0x01,
            Access.read Reg.PIND (hw.pind
              (s.log ++ [Access.read Reg.DDRD s.regs.DDRD, Access.write Reg.PORTD 0,
                Access.write Reg.DDRD 0x01])
              { s.regs with PORTD := 0, DDRD := 0x01 }),
            Access.write Reg.DDRD 0x02])
          { s.regs with PORTD := 0, DDRD := 0x02 }),
        Access.write Reg.DDRD (s.regs.DDRD % 2 ^ 8)] := by
  simp [twi_fault, State.write, State.read, readPIND, Regs.get, Regs.set]

/-- C6. For every 8-bit content of `DDRD` at probe time and every
environment (so every pair of pin readings and either result of the probe),
`DDRD` after `twi_fault` equals `DDRD` before it, and the last volatile
access of the probe is the write of that value to `DDRD`. -/
theorem twi_fault_restores_DDRD (hw : Hw) (s : State) (h : s.regs.DDRD < 2 ^ 8) :
    (twi_fault hw s).2.regs.DDRD = s.regs.DDRD ∧
    (twi_fault hw s).2.log.getLast? = some (Access.write Reg.DDRD s.regs.DDRD) := by
  have hm : s.regs.DDRD % 2 ^ 8 = s.regs.DDRD := Nat.mod_eq_of_lt h
  constructor
  · show s.regs.DDRD % 2 ^ 8 = s.regs.DDRD
    exact hm
  · simp [twi_fault, State.write, State.read, readPIND, Regs.get, Regs.set]
    omega

/-- C7. The result of `twi_fault` is the conjunction of its two tests: it
is `true` exactly when bit 1 of `PIND` (the data line) reads low at the
reading taken with `PORTD = 0`, `DDRD = 0x01`, and bit 0 of `PIND` (the
clock line) reads low at the reading taken with `PORTD = 0`, `DDRD = 0x02`;
the flag `twi_fault_detected` after the call equals the result; and the
accesses made are, in order: read `DDRD`, write `PORTD`, write `DDRD`, read
`PIND`, write `DDRD`, read `PIND`, write `DDRD`. -/
theorem twi_fault_result (hw : Hw) (s : State) :
    ((twi_fault hw s).1 = true ↔
      ((hw.pind
          (s.log ++ [Access.read Reg.DDRD s.regs.DDRD, Access.write Reg.PORTD 0,
            Access.write Reg.DDRD 0x01])
          { s.regs with PORTD := 0, DDRD := 0x01 }).testBit 1 = false ∧
       (hw.pind
          (s.log ++ [Access.read Reg.DDRD s.regs.DDRD, Access.write Reg.PORTD 0,
            Access.write Reg.DDRD 0x01,
            Access.read Reg.PIND (hw.pind
              (s.log ++ [Access.read Reg.DDRD s.regs.DDRD, Access.write Reg.PORTD 0,
                Access.write Reg.DDRD 0x01])
              { s.regs with PORTD := 0, DDRD := 0x01 }),
            Access.write Reg.DDRD 0x02])
          { s.regs with PORTD := 0, DDRD := 0x02 }).testBit 0 = false)) ∧
    (twi_fault hw s).2.twi_fault_detected = (twi_fault hw s).1 ∧
    (twi_fault hw s).2.log = s.log ++
      [Access.read Reg.DDRD s.regs.DDRD, Access.write Reg.PORTD 0,
        Access.write Reg.DDRD 0x01,
        Access.read Reg.PIND (hw.pind
          (s.log ++ [Access.read Reg.DDRD s.regs.DDRD, Access.write Reg.PORTD 0,
            Access.write Reg.DDRD 0x01])
          { s.regs with PORTD := 0, DDRD := 0x01 }),
        Access.write Reg.DDRD 0x02,
        Access.read Reg.PIND (hw.pind
          (s.log ++ [Access.read Reg.DDRD s.regs.DDRD, Access.write Reg.PORTD 0,
            Access.write Reg.DDRD 0x01,
            Access.read Reg.PIND (hw.pind
              (s.log ++ [Access.read Reg.DDRD s.regs.DDRD, Access.write Reg.PORTD 0,
                Access.write Reg.DDRD 0x01])
              { s.regs with PORTD := 0, DDRD := 0x01 }),
            Access.write Reg.DDRD 0x02])
          { s.regs with PORTD := 0, DDRD := 0x02 }),
        Access.write Reg.DDRD (s.regs.DDRD % 2 ^ 8)] := by
  refine ⟨?_, rfl, twi_fault_log hw s⟩
  simp [twi_fault, State.write, State.read, readPIND, Regs.get, Regs.set,
    and_two_eq_zero_iff, and_one_eq_zero_iff]

/-- C10. For every prior content of `PORTD` and every environment, `PORTD`
is `0` after `twi_fault` and after `twi_init`; so, `DDRD` being an 8-bit
value, the probe leaves the pair (`DDRD`, `PORTD`) as it found it exactly
when `PORTD` was `0` before. -/
theorem twi_fault_zeroes_PORTD (F_CPU TWI_FREQ : Int) (hw : Hw) (s : State) :
    (twi_fault hw s).2.regs.PORTD = 0 ∧
    (twi_init F_CPU TWI_FREQ hw s).regs.PORTD = 0 ∧
    (s.regs.DDRD < 2 ^ 8 →
      (((twi_fault hw s).2.regs.DDRD = s.regs.DDRD ∧
          (twi_fault hw s).2.regs.PORTD = s.regs.PORTD) ↔ s.regs.PORTD = 0)) := by
  have h1 : (twi_fault hw s).2.regs.PORTD = 0 := rfl
  have h2 : (twi_fault hw s).2.regs.DDRD = s.regs.DDRD % 2 ^ 8 := rfl
  refine ⟨h1, ?_, fun h => ?_⟩
  · unfold twi_init
    cases hf : (twi_fault hw s).1
    · simp only [hf]
      exact h1
    · simp only [hf]
      exact h1
  · rw [h1, h2, Nat.mod_eq_of_lt h]
    constructor
    · rintro ⟨-, h0⟩
      exact h0.symm
    · intro h0
      exact ⟨rfl, h0.symm⟩

/-! ## `twi_init` -/

set_option maxRecDepth 100000 in
theorem clear_prescaler_value :
    ∀ v, v < 256 →
      (v &&& (0xFFFF ^^^ ((1 <<< TWPS1) ||| (1 <<< TWPS0)))) % 2 ^ 8 = v &&& 0xFC := by
  decide

theorem testBit_and_0xFC (v i : Nat) (hv : v < 2 ^ 8) :
    (v &&& 0xFC).testBit i = (v.testBit i && decide (i ≠ TWPS1 ∧ i ≠ TWPS0)) := by
  rw [Nat.testBit_and]
  by_cases hi : i < 8
  · have hb : Nat.testBit 0xFC i = decide (i ≠ TWPS1 ∧ i ≠ TWPS0) := by
      interval_cases i <;> decide
    rw [hb]
  · have h0 : v.testBit i = false :=
      Nat.testBit_lt_two_pow (lt_of_lt_of_le hv (Nat.pow_le_pow_right (by norm_num) (by omega)))
    simp [h0]

/-- C5. If the probe reports no fault (and `TWSR` holds an 8-bit value and
`TWI_FREQ` is not zero), `twi_init` clears bits `TWPS1` and `TWPS0` of
`TWSR` and keeps every other bit of it, stores
`((F_CPU / TWI_FREQ) - 16) / 2` (C integer arithmetic, converted to
`uint8_t`) in `TWBR`, which for natural constants with
`16 ≤ F_CPU / TWI_FREQ` is `((F_CPU / TWI_FREQ - 16) / 2) % 256`, and leaves
`TWCR` and `TWDR` alone.  If the probe reports a fault, `twi_init` does
nothing after the probe: `TWSR`, `TWBR`, `TWCR`, `TWDR` are unchanged and
every volatile access made goes to `DDRD`, `PORTD` or `PIND`. -/
theorem twi_init_spec (F_CPU TWI_FREQ : Int) (hw : Hw) (s : State) :
    ((twi_fault hw s).1 = false → s.regs.TWSR < 2 ^ 8 → TWI_FREQ ≠ 0 →
      (∀ i, (twi_init F_CPU TWI_FREQ hw s).regs.TWSR.testBit i =
        (s.regs.TWSR.testBit i && decide (i ≠ TWPS1 ∧ i ≠ TWPS0))) ∧
      (twi_init F_CPU TWI_FREQ hw s).regs.TWBR =
        ((((F_CPU.tdiv TWI_FREQ) - 16).tdiv 2) % 2 ^ 8).toNat ∧
      (∀ f t : Nat, F_CPU = f → TWI_FREQ = t → 16 ≤ f / t →
        (twi_init F_CPU TWI_FREQ hw s).regs.TWBR = ((f / t - 16) / 2) % 2 ^ 8) ∧
      (twi_init F_CPU TWI_FREQ hw s).regs.TWCR = s.regs.TWCR ∧
      (twi_init F_CPU TWI_FREQ hw s).regs.TWDR = s.regs.TWDR) ∧
    ((twi_fault hw s).1 = true →
      twi_init F_CPU TWI_FREQ hw s = (twi_fault hw s).2 ∧
      (twi_init F_CPU TWI_FREQ hw s).regs.TWSR = s.regs.TWSR ∧
      (twi_init F_CPU TWI_FREQ hw s).regs.TWBR = s.regs.TWBR ∧
      (twi_init F_CPU TWI_FREQ hw s).regs.TWCR = s.regs.TWCR ∧
      (twi_init F_CPU TWI_FREQ hw s).regs.TWDR = s.regs.TWDR ∧
      ∃ ext, (twi_init F_CPU TWI_FREQ hw s).log = s.log ++ ext ∧
        ∀ a ∈ ext, a.reg = Reg.DDRD ∨ a.reg = Reg.PORTD ∨ a.reg = Reg.PIND) := by
  constructor
  · intro hf hv _
    have hinit : twi_init F_CPU TWI_FREQ hw s =
        (((twi_fault hw s).2.read Reg.TWSR).2.write Reg.TWSR
          (((twi_fault hw s).2.read Reg.TWSR).1 &&&
            (0xFFFF ^^^ ((1 <<< TWPS1) ||| (1 <<< TWPS0))))).write Reg.TWBR
          (twbr_value F_CPU TWI_FREQ) := by
      unfold twi_init
      simp only [hf]
      rfl
    have hTWSR : (twi_init F_CPU TWI_FREQ hw s).regs.TWSR = s.regs.TWSR &&& 0xFC := by
      rw [hinit]
      exact clear_prescaler_value s.regs.TWSR hv
    have hTWBR : (twi_init F_CPU TWI_FREQ hw s).regs.TWBR =
        ((((F_CPU.tdiv TWI_FREQ) - 16).tdiv 2) % 2 ^ 8).toNat := by
      rw [hinit]
      show twbr_value F_CPU TWI_FREQ % 2 ^ 8 = _
      unfold twbr_value
      omega
    refine ⟨fun i => ?_, hTWBR, ?_, ?_, ?_⟩
    · rw [hTWSR]
      exact testBit_and_0xFC _ i hv
    · intro f t hF hT h16
      rw [hTWBR, hF, hT, ← Int.ofNat_tdiv]
      have h2 : ((f / t : Nat) : Int) - 16 = ((f / t - 16 : Nat) : Int) := by omega
      have h3 : ((f / t - 16 : Nat) : Int).tdiv 2 = (((f / t - 16) / 2 : Nat) : Int) := by
        rw [Int.ofNat_tdiv]; rfl
      rw [h2, h3]
      omega
    · rw [hinit]; rfl
    · rw [hinit]; rfl
  · intro hf
    have hinit : twi_init F_CPU TWI_FREQ hw s = (twi_fault hw s).2 := by
      unfold twi_init
      simp only [hf]
      rfl
    refine ⟨hinit, ?_, ?_, ?_, ?_, ?_⟩
    · rw [hinit]; rfl
    · rw [hinit]; rfl
    · rw [hinit]; rfl
    · rw [hinit]; rfl
    · rw [hinit]
      refine ⟨_, twi_fault_log hw s, ?_⟩
      intro a ha
      simp only [List.mem_cons, List.mem_singleton, List.not_mem_nil, or_false] at ha
      rcases ha with rfl | rfl | rfl | rfl | rfl | rfl | rfl <;> simp [Access.reg]

/-! ## The flag and the sentinel -/

theorem busyWait_flag (hw : Hw) (spin : Nat → Bool) (fuel : Nat) (s s' : State)
    (h : busyWait hw spin fuel s = some s') :
    s'.twi_fault_detected = s.twi_fault_detected := by
  induction fuel generalizing s with
  | zero => simp [busyWait] at h
  | succ fuel ih =>
    simp only [busyWait] at h
    split_ifs at h with hc
    · rw [ih _ h, poll_flag]
    · cases h
      exact poll_flag hw s

theorem twi_start_flag_clear (hw : Hw) (fuel : Nat) (s s' : State) (ret : Nat)
    (hflag : s.twi_fault_detected = false) (h : twi_start hw fuel s = some (ret, s')) :
    ret ≤ 0xF8 ∧ s'.twi_fault_detected = false := by
  unfold twi_start at h
  simp only [hflag, Bool.false_eq_true, if_false] at h
  cases hb : busyWait hw (fun v => (v &&& (1 <<< TWINT)) == 0) fuel
      (s.write Reg.TWCR ((1 <<< TWINT) ||| (1 <<< TWEN) ||| (1 <<< TWSTA))) with
  | none => simp [hb] at h
  | some s2 =>
    have hf2 : s2.twi_fault_detected = false := by
      rw [busyWait_flag _ _ _ _ _ hb, write_flag, hflag]
    simp only [hb] at h
    split_ifs at h <;>
      (simp only [Option.some.injEq, Prod.mk.injEq] at h
       obtain ⟨rfl, rfl⟩ := h
       exact ⟨by first | exact status_le _ | exact Nat.zero_le _, hf2⟩)

theorem twi_send_flag_clear (hw : Hw) (fuel data : Nat) (s s' : State) (ret : Nat)
    (hflag : s.twi_fault_detected = false) (h : twi_send hw fuel data s = some (ret, s')) :
    ret ≤ 0xF8 ∧ s'.twi_fault_detected = false := by
  unfold twi_send at h
  simp only [hflag, Bool.false_eq_true, if_false] at h
  cases hb : busyWait hw (fun v => (v &&& (1 <<< TWINT)) == 0) fuel
      ((s.write Reg.TWDR data).write Reg.TWCR ((1 <<< TWINT) ||| (1 <<< TWEN))) with
  | none => simp [hb] at h
  | some s2 =>
    have hf2 : s2.twi_fault_detected = false := by
      rw [busyWait_flag _ _ _ _ _ hb, write_flag, write_flag, hflag]
    simp only [hb] at h
    split_ifs at h <;>
      (simp only [Option.some.injEq, Prod.mk.injEq] at h
       obtain ⟨rfl, rfl⟩ := h
       exact ⟨by first | exact status_le _ | exact Nat.zero_le _, hf2⟩)

theorem twi_read_flag_clear (hw : Hw) (fuel slot : Nat) (s s' : State) (ret d : Nat)
    (hflag : s.twi_fault_detected = false) (h : twi_read hw fuel slot s = some (ret, d, s')) :
    ret ≤ 0xF8 ∧ s'.twi_fault_detected = false := by
  unfold twi_read at h
  simp only [hflag, Bool.false_eq_true, if_false] at h
  cases hb : busyWait hw (fun v => (v &&& (1 <<< TWINT)) == 0) fuel
      (s.write Reg.TWCR ((1 <<< TWINT) ||| (1 <<< TWEN) ||| (1 <<< TWEA))) with
  | none => simp [hb] at h
  | some s2 =>
    have hf2 : s2.twi_fault_detected = false := by
      rw [busyWait_flag _ _ _ _ _ hb, write_flag, hflag]
    simp only [hb] at h
    split_ifs at h <;>
      (simp only [Option.some.injEq, Prod.mk.injEq] at h
       obtain ⟨rfl, -, rfl⟩ := h
       exact ⟨by first | exact status_le _ | exact Nat.zero_le _, hf2⟩)

theorem twi_stop_flag (hw : Hw) (fuel : Nat) (s s' : State)
    (h : twi_stop hw fuel s = some s') :
    s'.twi_fault_detected = s.twi_fault_detected := by
  unfold twi_stop at h
  split_ifs at h with hc
  · cases h; rfl
  · rw [busyWait_flag _ _ _ _ _ h, write_flag]

/-- C9. The sentinel `(uint8_t)(-1)` is `255`; no masked status
`TWSR & 0xF8` equals it; and whenever `twi_start`, `twi_send` or `twi_read`
returns, the value returned is the sentinel exactly when the fault flag was
set at the call. -/
theorem sentinel_iff_fault (hw : Hw) (fuel data slot : Nat) (s : State) :
    FAULT_SENTINEL = 255 ∧
    (∀ v : Nat, v &&& TW_STATUS_MASK ≠ FAULT_SENTINEL) ∧
    (∀ ret s', twi_start hw fuel s = some (ret, s') →
      (ret = FAULT_SENTINEL ↔ s.twi_fault_detected = true)) ∧
    (∀ ret s', twi_send hw fuel data s = some (ret, s') →
      (ret = FAULT_SENTINEL ↔ s.twi_fault_detected = true)) ∧
    (∀ ret d s', twi_read hw fuel slot s = some (ret, d, s') →
      (ret = FAULT_SENTINEL ↔ s.twi_fault_detected = true)) := by
  have hS : FAULT_SENTINEL = 255 := FAULT_SENTINEL_eq
  refine ⟨hS, fun v => ?_, fun ret s' h => ?_, fun ret s' h => ?_, fun ret d s' h => ?_⟩
  · have := status_le v
    rw [hS]; omega
  · cases hflag : s.twi_fault_detected
    · have := (twi_start_flag_clear hw fuel s s' ret hflag h).1
      rw [hS]; simp; omega
    · have := twi_start_faulted hw fuel s hflag
      rw [this] at h
      simp only [Option.some.injEq, Prod.mk.injEq] at h
      simp [hS, h.1.symm]
  · cases hflag : s.twi_fault_detected
    · have := (twi_send_flag_clear hw fuel data s s' ret hflag h).1
      rw [hS]; simp; omega
    · have := twi_send_faulted hw fuel data s hflag
      rw [this] at h
      simp only [Option.some.injEq, Prod.mk.injEq] at h
      simp [hS, h.1.symm]
  · cases hflag : s.twi_fault_detected
    · have := (twi_read_flag_clear hw fuel slot s s' ret d hflag h).1
      rw [hS]; simp; omega
    · have := twi_read_faulted hw fuel slot s hflag
      rw [this] at h
      simp only [Option.some.injEq, Prod.mk.injEq] at h
      simp [hS, h.1.symm]

theorem twi_init_flag (F_CPU TWI_FREQ : Int) (hw : Hw) (s : State) :
    (twi_init F_CPU TWI_FREQ hw s).twi_fault_detected = (twi_fault hw s).1 := by
  unfold twi_init
  cases hf : (twi_fault hw s).1
  · simp only [hf, Bool.false_eq_true, if_false]
    exact hf
  · simp only [hf, if_true]
    exact hf

theorem Op.run_flag (F_CPU TWI_FREQ : Int) (hw : Hw) (fuel : Nat) (op : Op) (s s' : State)
    (hop : op ≠ Op.init) (h : op.run F_CPU TWI_FREQ hw fuel s = some s') :
    s'.twi_fault_detected = s.twi_fault_detected := by
  cases hflag : s.twi_fault_detected
  · cases op with
    | init => exact absurd rfl hop
    | start =>
      simp only [Op.run, Option.map_eq_some'] at h
      obtain ⟨⟨ret, s2⟩, h, rfl⟩ := h
      exact (twi_start_flag_clear hw fuel s s2 ret hflag h).2
    | stop =>
      rw [twi_stop_flag hw fuel s s' h, hflag]
    | send data =>
      simp only [Op.run, Option.map_eq_some'] at h
      obtain ⟨⟨ret, s2⟩, h, rfl⟩ := h
      exact (twi_send_flag_clear hw fuel data s s2 ret hflag h).2
    | read slot =>
      simp only [Op.run, Option.map_eq_some'] at h
      obtain ⟨⟨ret, d, s2⟩, h, rfl⟩ := h
      exact (twi_read_flag_clear hw fuel slot s s2 ret d hflag h).2
  · cases op with
    | init => exact absurd rfl hop
    | start =>
      simp only [Op.run, twi_start_faulted hw fuel s hflag, Option.map_some',
        Option.some.injEq] at h
      rw [← h, hflag]
    | stop =>
      simp only [Op.run, twi_stop_faulted hw fuel s hflag, Option.some.injEq] at h
      rw [← h, hflag]
    | send data =>
      simp only [Op.run, twi_send_faulted hw fuel data s hflag, Option.map_some',
        Option.some.injEq] at h
      rw [← h, hflag]
    | read slot =>
      simp only [Op.run, twi_read_faulted hw fuel slot s hflag, Option.map_some',
        Option.some.injEq] at h
      rw [← h, hflag]

theorem runOps_faulted (F_CPU TWI_FREQ : Int) (hw : Hw) (fuel : Nat) (ops : List Op)
    (s : State) (hflag : s.twi_fault_detected = true) (hops : ∀ op ∈ ops, op ≠ Op.init) :
    runOps F_CPU TWI_FREQ hw fuel ops s = some s := by
  induction ops with
  | nil => rfl
  | cons op ops ih =>
    have hrun : op.run F_CPU TWI_FREQ hw fuel s = some s := by
      cases op with
      | init => exact absurd rfl (hops Op.init (List.mem_cons_self _ _))
      | start => simp [Op.run, twi_start_faulted hw fuel s hflag]
      | stop => simp [Op.run, twi_stop_faulted hw fuel s hflag]
      | send data => simp [Op.run, twi_send_faulted hw fuel data s hflag]
      | read slot => simp [Op.run, twi_read_faulted hw fuel slot s hflag]
    simp only [runOps, hrun, Option.some_bind]
    exact ih (fun op hop => hops op (List.mem_cons_of_mem _ hop))

/-- C8 (as amended). The flag starts `false`; `twi_start`, `twi_stop`,
`twi_send` and `twi_read` never change it, whenever they return; so once it
is `true`, every sequence of these four calls returns, at any fuel, with the
whole state untouched (the flag stays `true` and the bus operations stay
disabled).  Every call of `twi_init` runs the probe and stores the result of
that probe in the flag. -/
theorem fault_flag_latch_amended (F_CPU TWI_FREQ : Int) (hw : Hw) :
    (∀ r, (State.start r).twi_fault_detected = false) ∧
    (∀ fuel op s s', op ≠ Op.init → op.run F_CPU TWI_FREQ hw fuel s = some s' →
      s'.twi_fault_detected = s.twi_fault_detected) ∧
    (∀ fuel ops s, s.twi_fault_detected = true → (∀ op ∈ ops, op ≠ Op.init) →
      runOps F_CPU TWI_FREQ hw fuel ops s = some s) ∧
    (∀ s, (twi_init F_CPU TWI_FREQ hw s).twi_fault_detected = (twi_fault hw s).1 ∧
      ∃ ext, (twi_init F_CPU TWI_FREQ hw s).log = (twi_fault hw s).2.log ++ ext ∧
        (twi_fault hw s).2.log.length = s.log.length + 7) :=
  ⟨fun _ => rfl,
   fun fuel op s s' hop h => Op.run_flag F_CPU TWI_FREQ hw fuel op s s' hop h,
   fun fuel ops s hflag hops => runOps_faulted F_CPU TWI_FREQ hw fuel ops s hflag hops,
   fun s => ⟨twi_init_flag F_CPU TWI_FREQ hw s, by
     refine ⟨(twi_init F_CPU TWI_FREQ hw s).log.drop (twi_fault hw s).2.log.length, ?_, ?_⟩
     · unfold twi_init
       cases hf : (twi_fault hw s).1
       · simp only [hf]
         simp [State.write, State.read]
       · simp only [hf]
         simp
     · rw [twi_fault_log]
       simp⟩⟩

/-! ## The theorems at concrete inputs -/

/-- C1 at a concrete input: the flagged state with reset registers, fuel 0,
byte `0x42`, output slot holding `0x99`. -/
theorem fault_flag_blocks_all_witness :
    faultedState.twi_fault_detected = true ∧
    twi_start (simHw 0xFF 0x08 0) 0 faultedState = some (255, faultedState) ∧
    twi_send (simHw 0xFF 0x08 0) 0 0x42 faultedState = some (255, faultedState) ∧
    twi_read (simHw 0xFF 0x08 0) 0 0x99 faultedState = some (255, 0x99, faultedState) ∧
    twi_stop (simHw 0xFF 0x08 0) 0 faultedState = some faultedState :=
  ⟨rfl, fault_flag_blocks_all (simHw 0xFF 0x08 0) 0 0x42 0x99 faultedState rfl⟩

/-- C3 at a concrete input: the simulated peripheral completes at the second
poll with status `TW_START`. -/
theorem twi_start_spec_witness :
    ∃ fuel ret s',
      (∀ f, fuel ≤ f →
        twi_start (simHw 0xFF 0x08 0) f (State.start resetRegs) = some (ret, s')) ∧
      (∃ rest, s'.log = (State.start resetRegs).log ++
          Access.write Reg.TWCR ((1 <<< TWINT) ||| (1 <<< TWEN) ||| (1 <<< TWSTA)) :: rest ∧
        ∀ a ∈ rest, a.isRead = true) ∧
      s'.regs.TWCR &&& (1 <<< TWINT) ≠ 0 ∧
      ((s'.regs.TWSR &&& TW_STATUS_MASK = TW_START ∨
          s'.regs.TWSR &&& TW_STATUS_MASK = TW_REP_START) → ret = 0) ∧
      (¬ (s'.regs.TWSR &&& TW_STATUS_MASK = TW_START ∨
          s'.regs.TWSR &&& TW_STATUS_MASK = TW_REP_START) →
        ret = s'.regs.TWSR &&& TW_STATUS_MASK) :=
  twi_start_spec (simHw 0xFF 0x08 0) (State.start resetRegs) rfl ⟨1, by decide⟩

/-- C2: with the fault flag clear and `TWINT` raised, a status of `0x00`
(which is none of the three accepted codes) makes `twi_send` return `0`. -/
theorem twi_send_zero_status_counterexample :
    (State.start resetRegs).twi_fault_detected = false ∧
    (twi_send (simHw 0xFF 0x00 0) 2 0x42 (State.start resetRegs)).map
        (fun r => (r.1, r.2.regs.TWCR &&& (1 <<< TWINT), r.2.regs.TWSR &&& TW_STATUS_MASK)) =
      some (0, 0x80, 0x00) ∧
    ¬ ((0x00 : Nat) = TW_MT_SLA_ACK ∨ (0x00 : Nat) = TW_MT_DATA_ACK ∨
        (0x00 : Nat) = TW_MR_SLA_ACK) :=
  ⟨rfl, by decide, by decide⟩

/-- C2 (as amended) at a concrete input: byte `0x42`, the simulated
peripheral completes at the second poll with status `TW_MT_DATA_ACK`. -/
theorem twi_send_spec_witness :
    ∃ fuel ret s',
      (∀ f, fuel ≤ f →
        twi_send (simHw 0xFF 0x28 0) f 0x42 (State.start resetRegs) = some (ret, s')) ∧
      s'.regs.TWCR &&& (1 <<< TWINT) ≠ 0 ∧
      ((s'.regs.TWSR &&& TW_STATUS_MASK = TW_MT_SLA_ACK ∨
          s'.regs.TWSR &&& TW_STATUS_MASK = TW_MT_DATA_ACK ∨
          s'.regs.TWSR &&& TW_STATUS_MASK = TW_MR_SLA_ACK) → ret = 0) ∧
      (¬ (s'.regs.TWSR &&& TW_STATUS_MASK = TW_MT_SLA_ACK ∨
          s'.regs.TWSR &&& TW_STATUS_MASK = TW_MT_DATA_ACK ∨
          s'.regs.TWSR &&& TW_STATUS_MASK = TW_MR_SLA_ACK) →
        ret = s'.regs.TWSR &&& TW_STATUS_MASK) ∧
      (ret = 0 ↔ (s'.regs.TWSR &&& TW_STATUS_MASK = TW_MT_SLA_ACK ∨
          s'.regs.TWSR &&& TW_STATUS_MASK = TW_MT_DATA_ACK ∨
          s'.regs.TWSR &&& TW_STATUS_MASK = TW_MR_SLA_ACK ∨
          s'.regs.TWSR &&& TW_STATUS_MASK = 0)) :=
  twi_send_spec (simHw 0xFF 0x28 0) 0x42 (State.start resetRegs) rfl ⟨1, by decide⟩

/-- C4 at concrete inputs: the flagged state keeps the slot content `0x55`;
from the start state the simulated peripheral completes at the second poll
with `TWDR = 0x99`. -/
theorem twi_read_spec_witness :
    (∀ fuel, twi_read (simHw 0xFF 0x50 0x99) fuel 0x55 faultedState =
      some (255, 0x55, faultedState)) ∧
    (∃ fuel ret s',
      (∀ f, fuel ≤ f → twi_read (simHw 0xFF 0x50 0x99) f 0x55 (State.start resetRegs) =
        some (ret, s'.regs.TWDR, s')) ∧
      s'.regs.TWCR &&& (1 <<< TWINT) ≠ 0 ∧
      Access.read Reg.TWDR s'.regs.TWDR ∈ s'.log ∧
      (s'.regs.TWSR &&& TW_STATUS_MASK = TW_MR_DATA_ACK → ret = 0) ∧
      (s'.regs.TWSR &&& TW_STATUS_MASK ≠ TW_MR_DATA_ACK →
        ret = s'.regs.TWSR &&& TW_STATUS_MASK)) :=
  ⟨(twi_read_spec (simHw 0xFF 0x50 0x99) 0x55 faultedState).1 rfl,
   (twi_read_spec (simHw 0xFF 0x50 0x99) 0x55 (State.start resetRegs)).2 rfl ⟨1, by decide⟩⟩

/-- C5 at concrete inputs: `F_CPU = 16000000`, `TWI_FREQ = 400000`,
`TWSR = 0xFB`; with free lines `TWBR` becomes `12` and bit 0 of `TWSR` is
cleared, with shorted lines `TWSR` and `TWBR` keep their contents. -/
theorem twi_init_spec_witness :
    (twi_fault (simHw 0xFF 0x08 0) (State.start { resetRegs with TWSR := 0xFB })).1 = false ∧
    (twi_init 16000000 400000 (simHw 0xFF 0x08 0)
      (State.start { resetRegs with TWSR := 0xFB })).regs.TWSR.testBit 0 = false ∧
    (twi_init 16000000 400000 (simHw 0xFF 0x08 0)
      (State.start { resetRegs with TWSR := 0xFB })).regs.TWBR = 12 ∧
    (twi_fault (simHw 0x00 0x08 0) (State.start { resetRegs with TWSR := 0xFB })).1 = true ∧
    (twi_init 16000000 400000 (simHw 0x00 0x08 0)
      (State.start { resetRegs with TWSR := 0xFB })).regs.TWSR = 0xFB ∧
    (twi_init 16000000 400000 (simHw 0x00 0x08 0)
      (State.start { resetRegs with TWSR := 0xFB })).regs.TWBR = 0 :=
  ⟨rfl,
   ((twi_init_spec 16000000 400000 (simHw 0xFF 0x08 0)
      (State.start { resetRegs with TWSR := 0xFB })).1 rfl (by decide) (by decide)).1 0,
   ((twi_init_spec 16000000 400000 (simHw 0xFF 0x08 0)
      (State.start { resetRegs with TWSR := 0xFB })).1 rfl (by decide) (by decide)).2.2.1
        16000000 400000 rfl rfl (by decide),
   rfl,
   ((twi_init_spec 16000000 400000 (simHw 0x00 0x08 0)
      (State.start { resetRegs with TWSR := 0xFB })).2 rfl).2.1,
   ((twi_init_spec 16000000 400000 (simHw 0x00 0x08 0)
      (State.start { resetRegs with TWSR := 0xFB })).2 rfl).2.2.1⟩

/-- C6 at a concrete input: `DDRD = 0xA5`, `PORTD = 0x3C`, shorted lines. -/
theorem twi_fault_restores_DDRD_witness :
    (twi_fault (simHw 0xFC 0x08 0)
      (State.start { resetRegs with DDRD := 0xA5, PORTD := 0x3C })).2.regs.DDRD = 0xA5 ∧
    (twi_fault (simHw 0xFC 0x08 0)
      (State.start { resetRegs with DDRD := 0xA5, PORTD := 0x3C })).2.log.getLast? =
        some (Access.write Reg.DDRD 0xA5) :=
  twi_fault_restores_DDRD (simHw 0xFC 0x08 0)
    (State.start { resetRegs with DDRD := 0xA5, PORTD := 0x3C }) (by decide)

/-- C10 at a concrete input: `DDRD = 0xA5`, `PORTD = 0x3C`. -/
theorem twi_fault_zeroes_PORTD_witness :
    (twi_fault (simHw 0xFF 0x08 0)
      (State.start { resetRegs with DDRD := 0xA5, PORTD := 0x3C })).2.regs.PORTD = 0 ∧
    (((twi_fault (simHw 0xFF 0x08 0)
        (State.start { resetRegs with DDRD := 0xA5, PORTD := 0x3C })).2.regs.DDRD = 0xA5 ∧
      (twi_fault (simHw 0xFF 0x08 0)
        (State.start { resetRegs with DDRD := 0xA5, PORTD := 0x3C })).2.regs.PORTD = 0x3C) ↔
      (0x3C : Nat) = 0) :=
  ⟨(twi_fault_zeroes_PORTD 16000000 400000 (simHw 0xFF 0x08 0)
      (State.start { resetRegs with DDRD := 0xA5, PORTD := 0x3C })).1,
   (twi_fault_zeroes_PORTD 16000000 400000 (simHw 0xFF 0x08 0)
      (State.start { resetRegs with DDRD := 0xA5, PORTD := 0x3C })).2.2 (by decide)⟩

/-- C9 at concrete inputs: a call that returns the status `0x38` from the
start state, and a call that returns `255` from the flagged state. -/
theorem sentinel_iff_fault_witness :
    (∃ s', twi_start (simHw 0xFF 0x38 0) 2 (State.start resetRegs) = some (0x38, s') ∧
      ((0x38 : Nat) = FAULT_SENTINEL ↔ (State.start resetRegs).twi_fault_detected = true)) ∧
    (twi_send (simHw 0xFF 0x38 0) 2 0x42 faultedState = some (255, faultedState) ∧
      ((255 : Nat) = FAULT_SENTINEL ↔ faultedState.twi_fault_detected = true)) :=
  ⟨⟨_, rfl, (sentinel_iff_fault (simHw 0xFF 0x38 0) 2 0x42 0x55
      (State.start resetRegs)).2.2.1 0x38 _ rfl⟩,
   ⟨rfl, (sentinel_iff_fault (simHw 0xFF 0x38 0) 2 0x42 0x55
      faultedState).2.2.2.1 255 faultedState rfl⟩⟩

/-- C8: started with the flag clear, a first `twi_init` (lines shorted) sets
the flag, a second `twi_init` (lines free) clears it again and a following
`twi_start` runs on the bus (its last access reads the status `0x08`); the
two calls of `twi_init` read `PIND` four
times, so the probe ran twice. -/
theorem fault_flag_cleared_by_later_init :
    (State.start resetRegs).twi_fault_detected = false ∧
    (runOps 16000000 400000 replugHw 0 [Op.init] (State.start resetRegs)).map
        (fun s => s.twi_fault_detected) = some true ∧
    (runOps 16000000 400000 replugHw 0 [Op.init, Op.init] (State.start resetRegs)).map
        (fun s => s.twi_fault_detected) = some false ∧
    (runOps 16000000 400000 replugHw 0 [Op.init, Op.init] (State.start resetRegs)).map
        (fun s => (s.log.filter (fun a => decide (a.reg = Reg.PIND))).length) = some 4 ∧
    (runOps 16000000 400000 replugHw 2 [Op.init, Op.init, Op.start]
        (State.start resetRegs)).map
        (fun s => (s.twi_fault_detected, s.log.getLast?)) =
      some (false, some (Access.read Reg.TWSR 0x08)) :=
  ⟨rfl, by decide, by decide, by decide, by decide⟩

/-- C8 (as amended) at concrete inputs: a `twi_start` that returns from the
start state leaves the flag clear, and the sequence start, send, read, stop
from the flagged state returns that state at fuel 0. -/
theorem fault_flag_latch_amended_witness :
    (∃ s', Op.run 16000000 400000 (simHw 0xFF 0x08 0) 2 Op.start (State.start resetRegs) =
        some s' ∧ s'.twi_fault_detected = (State.start resetRegs).twi_fault_detected) ∧
    runOps 16000000 400000 (simHw 0xFF 0x08 0) 0
      [Op.start, Op.send 0x42, Op.read 0x55, Op.stop] faultedState = some faultedState :=
  ⟨⟨_, rfl, (fault_flag_latch_amended 16000000 400000 (simHw 0xFF 0x08 0)).2.1 2 Op.start
      (State.start resetRegs) _ (by decide) rfl⟩,
   (fault_flag_latch_amended 16000000 400000 (simHw 0xFF 0x08 0)).2.2.1 0
      [Op.start, Op.send 0x42, Op.read 0x55, Op.stop] faultedState rfl (by decide)⟩

end Twi
